import Mathlib

/-!
Shallow embedding of the opencensus-go Jaeger exporter
(`jaeger.go`, `agent.go`) and proofs about its span translation,
endpoint selection, agent UDP transport and collector upload logic.

Conventions of the embedding:
* Go byte buffers are `List Nat` with every element `< 256`.
* Go `int64` / `int32` values are Lean `Int`; where the code reinterprets a
  machine word the two's-complement conversion is written out explicitly.
* IEEE-754 doubles are carried opaquely by their 64-bit pattern: the exporter
  never computes with them, it only stores and forwards them.
* The thrift wire codec, UDP socket and HTTP client are external
  collaborators; they enter as explicit parameters (an encoding function, a
  write log in the state, the received response status).
-/

namespace JaegerExporter

/-- IEEE-754 double payload, modelled by its 64-bit pattern; the exporter
performs no floating-point arithmetic, values are forwarded verbatim. -/
structure Float64 where
  bits : Nat
deriving DecidableEq, Repr

/-- Thrift tag type discriminator (`jaeger.TagType`). -/
inductive TagType where
  | STRING
  | DOUBLE
  | BOOL
  | LONG
  | BINARY
deriving DecidableEq, Repr

/-- Wire tag (`jaeger.Tag`): key plus optional value fields, of which the one
matching `VType` is populated. -/
structure Tag where
  Key : String
  VType : TagType
  VStr : Option String := none
  VDouble : Option Float64 := none
  VBool : Option Bool := none
  VLong : Option Int := none
deriving DecidableEq, Repr

/-- A dynamically typed attribute value (Go `interface{}`).  The five runtime
types the exporter supports get one constructor each; `other` stands for every
other runtime type. -/
inductive AttributeValue where
  | bool (b : Bool)
  | string (s : String)
  | int64 (i : Int)
  | int32 (i : Int)
  | float64 (f : Float64)
  | other
deriving DecidableEq, Repr

/-- `attributeToTag` of `jaeger.go`: map one attribute to a wire tag, `none`
for an unsupported runtime type; an `int32` is widened to the `LONG` wire
representation. -/
def attributeToTag (key : String) (a : AttributeValue) : Option Tag :=
  match a with
  | AttributeValue.bool value =>
      some { Key := key, VBool := some value, VType := TagType.BOOL }
  | AttributeValue.string value =>
      some { Key := key, VStr := some value, VType := TagType.STRING }
  | AttributeValue.int64 value =>
      some { Key := key, VLong := some value, VType := TagType.LONG }
  | AttributeValue.int32 value =>
      some { Key := key, VLong := some value, VType := TagType.LONG }
  | AttributeValue.float64 value =>
      some { Key := key, VDouble := some value, VType := TagType.DOUBLE }
  | AttributeValue.other => none

/-- One annotation of a span record (`trace.Annotation`); `Time` is
nanoseconds since the epoch (`UnixNano`). -/
structure Annotation where
  Time : Int
  Message : String
  Attributes : List (String × AttributeValue)
deriving DecidableEq, Repr

/-- One link of a span record (`trace.Link`): a 16-byte trace id and an
8-byte span id. -/
structure Link where
  TraceID : List Nat
  SpanID : List Nat
deriving DecidableEq, Repr

/-- `trace.Status`: a code (Go `int32`) and a message. -/
structure Status where
  Code : Int
  Message : String
deriving DecidableEq, Repr

/-- `trace.SpanData`: the in-memory span record handed to the exporter.
`TraceID` is 16 bytes, `SpanID` and `ParentSpanID` 8 bytes; times are
nanoseconds since the epoch; `TraceOptions` is the `uint32` options word whose
lowest bit is the sampling flag; `Attributes` is the attribute map as a list
of key/value pairs in iteration order. -/
structure SpanData where
  TraceID : List Nat
  SpanID : List Nat
  TraceOptions : Nat
  ParentSpanID : List Nat
  Name : String
  SpanKind : Int
  StartTime : Int
  EndTime : Int
  Attributes : List (String × AttributeValue)
  Annotations : List Annotation
  Status : Status
  Links : List Link
deriving DecidableEq, Repr

/-- `trace.SpanKindUnspecified`. -/
def SpanKindUnspecified : Int := 0

/-- `trace.SpanKindServer`. -/
def SpanKindServer : Int := 1

/-- `trace.SpanKindClient`. -/
def SpanKindClient : Int := 2

/-- `trace.SpanData.IsSampled`: lowest bit of the trace options word. -/
def IsSampled (sd : SpanData) : Bool :=
  sd.TraceOptions % 2 = 1

/-- `binary.BigEndian.Uint64`: big-endian read of an 8-byte buffer. -/
def bigEndianUint64 (buf : List Nat) : Nat :=
  buf.foldl (fun acc b => acc * 256 + b) 0

/-- Go `int64(u)` for a `uint64` bit pattern: two's-complement
reinterpretation. -/
def uint64ToInt64 (u : Nat) : Int :=
  if u < 2 ^ 63 then (u : Int) else (u : Int) - 2 ^ 64

/-- `bytesToInt64` of `jaeger.go`: big-endian `uint64` of the buffer,
reinterpreted as `int64`. -/
def bytesToInt64 (buf : List Nat) : Int :=
  uint64ToInt64 (bigEndianUint64 buf)

/-- Go `int32(u)` for a `uint32` value: two's-complement reinterpretation of
the low 32 bits. -/
def uint32ToInt32 (u : Nat) : Int :=
  if u % 2 ^ 32 < 2 ^ 31 then ((u % 2 ^ 32 : Nat) : Int)
  else ((u % 2 ^ 32 : Nat) : Int) - 2 ^ 32

/-- Wire log entry (`jaeger.Log`): timestamp in microseconds plus fields. -/
structure Log where
  Timestamp : Int
  Fields : List Tag
deriving DecidableEq, Repr

/-- Wire span reference (`jaeger.SpanRef`). -/
structure SpanRef where
  TraceIdHigh : Int
  TraceIdLow : Int
  SpanId : Int
deriving DecidableEq, Repr

/-- Wire span (`jaeger.Span`). -/
structure Span where
  TraceIdHigh : Int
  TraceIdLow : Int
  SpanId : Int
  ParentSpanId : Int
  OperationName : String
  Flags : Int
  StartTime : Int
  Duration : Int
  Tags : List Tag
  Logs : List Log
  References : List SpanRef
deriving DecidableEq, Repr

/-- The OpenCensus OK status code sentinel (`opencensusStatusCodeOK`). -/
def opencensusStatusCodeOK : Int := 0

/-- `name` of `jaeger.go`: prefix the operation name according to the span
kind. -/
def name (sd : SpanData) : String :=
  if sd.SpanKind = SpanKindClient then "Sent." ++ sd.Name
  else if sd.SpanKind = SpanKindServer then "Recv." ++ sd.Name
  else sd.Name

/-- `spanDataToThrift` of `jaeger.go`: translate one span record into one
wire span.  Attribute tags (unsupported values dropped) come first, then the
two status tags — always non-nil since their inputs are `int32` and `string` —
then `error=true` when the status code is not OK.  Timestamps are divided by
1000 with Go's truncating `int64` division. -/
def spanDataToThrift (data : SpanData) : Span :=
  let attrTags := data.Attributes.filterMap (fun kv => attributeToTag kv.1 kv.2)
  let statusTags :=
    (attributeToTag "status.code" (AttributeValue.int32 data.Status.Code)).toList ++
    (attributeToTag "status.message" (AttributeValue.string data.Status.Message)).toList
  let errorTags :=
    if data.Status.Code ≠ opencensusStatusCodeOK then
      (attributeToTag "error" (AttributeValue.bool true)).toList
    else []
  let logs := data.Annotations.map (fun a =>
    { Timestamp := Int.tdiv a.Time 1000
      Fields :=
        a.Attributes.filterMap (fun kv => attributeToTag kv.1 kv.2) ++
        (attributeToTag "message" (AttributeValue.string a.Message)).toList })
  let refs := data.Links.map (fun link =>
    { TraceIdHigh := bytesToInt64 (link.TraceID.take 8)
      TraceIdLow := bytesToInt64 ((link.TraceID.drop 8).take 8)
      SpanId := bytesToInt64 link.SpanID })
  { TraceIdHigh := bytesToInt64 (data.TraceID.take 8)
    TraceIdLow := bytesToInt64 ((data.TraceID.drop 8).take 8)
    SpanId := bytesToInt64 data.SpanID
    ParentSpanId := bytesToInt64 data.ParentSpanID
    OperationName := name data
    Flags := uint32ToInt32 data.TraceOptions
    StartTime := Int.tdiv data.StartTime 1000
    Duration := Int.tdiv (data.EndTime - data.StartTime) 1000
    Tags := attrTags ++ statusTags ++ errorTags
    Logs := logs
    References := refs }

/-- `udpPacketMaxLength` of `agent.go`. -/
def udpPacketMaxLength : Nat := 65000

/-- `agentClientUDP`: the per-packet UDP client.  The socket is modelled by
the log of datagrams written so far; `thriftBuffer` is the in-memory encoding
buffer. -/
structure AgentClientUDP where
  thriftBuffer : List Nat
  maxPacketSize : Nat
  writes : List (List Nat)
deriving DecidableEq, Repr

/-- Wire process (`jaeger.Process`).  `Tags` may hold nil pointers, as the Go
slice can. -/
structure ThriftProcess where
  ServiceName : String
  Tags : List (Option Tag)
deriving DecidableEq, Repr

/-- Wire batch (`jaeger.Batch`). -/
structure Batch where
  Process : ThriftProcess
  Spans : List Span
deriving DecidableEq, Repr

/-- Error returned by the agent transport's `EmitBatch`: the oversized-batch
error carries the encoded size, the capacity and the span count. -/
inductive EmitBatchError where
  | oversized (size : Nat) (max : Nat) (spans : Nat)
deriving DecidableEq, Repr

/-- `agentClientUDP.EmitBatch` of `agent.go`: reset the thrift buffer, encode
the batch into it (`encode` is the external thrift compact codec), reject the
batch when the buffer exceeds the packet capacity, otherwise perform one
write of the buffer to the socket. -/
def EmitBatch (encode : Batch → List Nat) (a : AgentClientUDP) (batch : Batch) :
    Except EmitBatchError Unit × AgentClientUDP :=
  let a := { a with thriftBuffer := [] }
  let a := { a with thriftBuffer := a.thriftBuffer ++ encode batch }
  if a.thriftBuffer.length > a.maxPacketSize then
    (Except.error (EmitBatchError.oversized a.thriftBuffer.length a.maxPacketSize
        batch.Spans.length), a)
  else
    (Except.ok (), { a with writes := a.writes ++ [a.thriftBuffer] })

/-- Run a sequence of `EmitBatch` calls, collecting each call's result. -/
def runEmits (encode : Batch → List Nat) (a : AgentClientUDP) :
    List Batch → List (Except EmitBatchError Unit) × AgentClientUDP
  | [] => ([], a)
  | b :: bs =>
    let r := EmitBatch encode a b
    let rest := runEmits encode r.2 bs
    (r.1 :: rest.1, rest.2)

/-- `newAgentClientUDP` of `agent.go`, with address resolution and dialing —
pure IO — abstracted by the `resolveDial` collaborator; a zero
`maxPacketSize` falls back to `udpPacketMaxLength`. -/
def newAgentClientUDP (resolveDial : String → Except String Unit)
    (hostPort : String) (maxPacketSize : Nat) : Except String AgentClientUDP :=
  let m := if maxPacketSize = 0 then udpPacketMaxLength else maxPacketSize
  match resolveDial hostPort with
  | Except.error e => Except.error e
  | Except.ok _ => Except.ok { thriftBuffer := [], maxPacketSize := m, writes := [] }

/-- `Options` of `jaeger.go` (the fields the embedded code reads).
`Process` holds the service name and the process tags as key/value pairs. -/
structure ProcessOptions where
  ServiceName : String
  Tags : List (String × AttributeValue)
deriving DecidableEq, Repr

/-- Construction options for the exporter. -/
structure Options where
  Endpoint : String
  CollectorEndpoint : String
  AgentEndpoint : String
  Username : String
  Password : String
  ServiceName : String
  Process : ProcessOptions
  BufferMaxCount : Nat
deriving DecidableEq, Repr

/-- `Exporter` of `jaeger.go`.  The bundler's buffer of translated spans is
modelled directly as the list of buffered wire spans. -/
structure Exporter where
  endpoint : String
  agentEndpoint : String
  process : ThriftProcess
  bundler : List Span
  client : Option AgentClientUDP
  username : String
  password : String
deriving DecidableEq, Repr

/-- Construction-time error of `NewExporter`: either the configuration error
(no destination) or a failure dialing the agent. -/
inductive NewExporterError where
  | missingEndpoint
  | agentDialError (msg : String)
deriving DecidableEq, Repr

/-- `defaultServiceName` of `jaeger.go`. -/
def defaultServiceName : String := "OpenCensus"

/-- `NewExporter` of `jaeger.go`: validate that some destination is
configured, select the endpoint in the code's priority order (deprecated bare
`Endpoint` rewritten with the fixed API path, then `CollectorEndpoint`, then
the agent), resolve the service name and build the process tags. -/
def NewExporter (resolveDial : String → Except String Unit) (o : Options) :
    Except NewExporterError Exporter :=
  if o.Endpoint = "" ∧ o.CollectorEndpoint = "" ∧ o.AgentEndpoint = "" then
    Except.error NewExporterError.missingEndpoint
  else
    let selected : Except String (String × Option AgentClientUDP) :=
      if o.Endpoint ≠ "" then
        Except.ok (o.Endpoint ++ "/api/traces?format=jaeger.thrift", none)
      else if o.CollectorEndpoint ≠ "" then
        Except.ok (o.CollectorEndpoint, none)
      else
        match newAgentClientUDP resolveDial o.AgentEndpoint udpPacketMaxLength with
        | Except.error e => Except.error e
        | Except.ok c => Except.ok ("", some c)
    match selected with
    | Except.error e => Except.error (NewExporterError.agentDialError e)
    | Except.ok (endpoint, client) =>
      let service :=
        if o.Process.ServiceName = "" ∧ o.ServiceName ≠ "" then o.ServiceName
        else if o.Process.ServiceName = "" then defaultServiceName
        else o.Process.ServiceName
      let tags := o.Process.Tags.map (fun t => attributeToTag t.1 t.2)
      Except.ok
        { endpoint := endpoint
          agentEndpoint := o.AgentEndpoint
          process := { ServiceName := service, Tags := tags }
          bundler := []
          client := client
          username := o.Username
          password := o.Password }

/-- `Exporter.ExportSpan` of `jaeger.go`: hand the translated span to the
bundler when the record is sampled, otherwise do nothing. -/
def ExportSpan (e : Exporter) (data : SpanData) : Exporter :=
  if IsSampled data then
    { e with bundler := e.bundler ++ [spanDataToThrift data] }
  else e

/-- The outgoing HTTP request built by `uploadCollector`. -/
structure HttpRequest where
  method : String
  url : String
  contentType : String
  basicAuth : Option (String × String)
deriving DecidableEq, Repr

/-- Delivery failure of the collector transport, carrying the response
status code. -/
inductive UploadError where
  | httpStatus (code : Int)
deriving DecidableEq, Repr

/-- Request construction inside `Exporter.uploadCollector`: POST to the
configured endpoint with the thrift content type, basic credentials attached
exactly when both username and password are non-empty. -/
def buildCollectorRequest (e : Exporter) : HttpRequest :=
  { method := "POST"
    url := e.endpoint
    contentType := "application/x-thrift"
    basicAuth :=
      if e.username ≠ "" ∧ e.password ≠ "" then some (e.username, e.password)
      else none }

/-- Status handling of `Exporter.uploadCollector`: the HTTP exchange is the
collaborator, so the received status code is a parameter; any status outside
200..299 is a delivery failure carrying the code. -/
def uploadCollector (e : Exporter) (respStatus : Int) : Except UploadError Unit :=
  let _req := buildCollectorRequest e
  if respStatus < 200 ∨ respStatus ≥ 300 then
    Except.error (UploadError.httpStatus respStatus)
  else Except.ok ()


/-- A concrete span record used to instantiate the theorems: the sampled
record of the repository's own unit test. -/
def sd0 : SpanData :=
  { TraceID := [1, 2, 3, 4, 5, 6, 7, 8, 9, 10, 11, 12, 13, 14, 15, 16]
    SpanID := [1, 2, 3, 4, 5, 6, 7, 8]
    TraceOptions := 1
    ParentSpanID := [0, 0, 0, 0, 0, 0, 0, 0]
    Name := "/foo"
    SpanKind := 0
    StartTime := 0
    EndTime := 0
    Attributes := []
    Annotations := []
    Status := { Code := 0, Message := "" }
    Links := [] }

/-- A concrete exporter pointing at a collector. -/
def e0 : Exporter :=
  { endpoint := "http://collector:14268/api/traces"
    agentEndpoint := ""
    process := { ServiceName := "svc", Tags := [] }
    bundler := []
    client := none
    username := "u"
    password := "p" }

/-- A dial collaborator that always succeeds. -/
def dialOk : String → Except String Unit := fun _ => Except.ok ()

/-- Options with no destination configured. -/
def optsEmpty : Options :=
  { Endpoint := ""
    CollectorEndpoint := ""
    AgentEndpoint := ""
    Username := ""
    Password := ""
    ServiceName := ""
    Process := { ServiceName := "", Tags := [] }
    BufferMaxCount := 0 }

/-- Options with both the legacy bare endpoint and the explicit collector URL
configured. -/
def optsBoth : Options :=
  { optsEmpty with
    Endpoint := "http://legacy:14268"
    CollectorEndpoint := "http://collector:14268/api/traces" }

/-- Big-endian byte representation of a 64-bit pattern: the reassembly
direction of the trace-identifier split property. -/
def uint64ToBytesBE (u : Nat) : List Nat :=
  [u / 256 ^ 7 % 256, u / 256 ^ 6 % 256, u / 256 ^ 5 % 256, u / 256 ^ 4 % 256,
   u / 256 ^ 3 % 256, u / 256 ^ 2 % 256, u / 256 % 256, u % 256]

/-- Go `uint64(i)` for an `int64` value: the two's-complement bit pattern. -/
def int64ToUint64 (i : Int) : Nat :=
  (i % (2 ^ 64 : Int)).toNat

/-- Big-endian byte representation of an `int64`'s bit pattern. -/
def int64ToBytesBE (i : Int) : List Nat :=
  uint64ToBytesBE (int64ToUint64 i)

/-- A concrete span record with status code 2, as in the repository's unit
test. -/
def sdErr : SpanData :=
  { sd0 with Status := { Code := 2, Message := "error" } }

/-- A concrete empty batch. -/
def batch0 : Batch :=
  { Process := { ServiceName := "svc", Tags := [] }, Spans := [] }

/-- A concrete agent client with capacity 1 and stale buffer contents. -/
def agent1 : AgentClientUDP :=
  { thriftBuffer := [7, 7, 7], maxPacketSize := 1, writes := [[9]] }

/-! ### Helper lemmas -/

/-- The tag produced by `attributeToTag` carries the given key. -/
theorem attributeToTag_key (k : String) (v : AttributeValue) (t : Tag)
    (h : attributeToTag k v = some t) : t.Key = k := by
  cases v <;> simp [attributeToTag] at h <;> rw [← h]

/-- The result of one `EmitBatch` call. -/
theorem emitBatch_fst (encode : Batch → List Nat) (a : AgentClientUDP) (b : Batch) :
    (EmitBatch encode a b).1 =
      if (encode b).length > a.maxPacketSize then
        Except.error (EmitBatchError.oversized (encode b).length a.maxPacketSize
          b.Spans.length)
      else Except.ok () := by
  simp only [EmitBatch, List.nil_append]
  split_ifs <;> rfl

/-- The socket writes after one `EmitBatch` call. -/
theorem emitBatch_snd_writes (encode : Batch → List Nat) (a : AgentClientUDP) (b : Batch) :
    (EmitBatch encode a b).2.writes =
      if (encode b).length > a.maxPacketSize then a.writes
      else a.writes ++ [encode b] := by
  simp only [EmitBatch, List.nil_append]
  split_ifs <;> rfl

/-- `EmitBatch` never changes the configured packet capacity. -/
theorem emitBatch_snd_max (encode : Batch → List Nat) (a : AgentClientUDP) (b : Batch) :
    (EmitBatch encode a b).2.maxPacketSize = a.maxPacketSize := by
  simp only [EmitBatch, List.nil_append]
  split_ifs <;> rfl

example : bytesToInt64 [1, 2, 3, 4, 5, 6, 7, 8] = 72623859790382856 := by decide
example : bytesToInt64 [9, 10, 11, 12, 13, 14, 15, 16] = 651345242494996240 := by decide
example : bytesToInt64 [255, 0, 0, 0, 0, 0, 0, 0] = -72057594037927936 := by decide

/-! ### Claim theorems -/

/-- Claim C1: when the encoded byte length of a batch exceeds the configured
packet capacity, `EmitBatch` returns the oversized-batch error carrying the
exact encoded length, the capacity and the span count, and writes nothing to
the socket; otherwise it performs exactly one write of the full encoded byte
sequence. -/
theorem emitBatch_oversized_or_single_write (encode : Batch → List Nat)
    (a : AgentClientUDP) (b : Batch) :
    if (encode b).length > a.maxPacketSize then
      (EmitBatch encode a b).1 =
          Except.error (EmitBatchError.oversized (encode b).length a.maxPacketSize
            b.Spans.length) ∧
        (EmitBatch encode a b).2.writes = a.writes
    else
      (EmitBatch encode a b).1 = Except.ok () ∧
        (EmitBatch encode a b).2.writes = a.writes ++ [encode b] := by
  rw [emitBatch_fst, emitBatch_snd_writes]
  split_ifs <;> exact ⟨rfl, rfl⟩

/-- Claim C3: `NewExporter` fails with the missing-endpoint configuration
error exactly when none of the three destinations is configured. -/
theorem newExporter_missingEndpoint_iff (resolveDial : String → Except String Unit)
    (o : Options) :
    NewExporter resolveDial o = Except.error NewExporterError.missingEndpoint ↔
      (o.Endpoint = "" ∧ o.CollectorEndpoint = "" ∧ o.AgentEndpoint = "") := by
  constructor
  · intro hres
    by_contra hne
    revert hres
    unfold NewExporter
    rw [if_neg hne]
    by_cases h1 : o.Endpoint ≠ ""
    · simp [h1]
    · by_cases h2 : o.CollectorEndpoint ≠ ""
      · simp [h1, h2]
      · cases hh : newAgentClientUDP resolveDial o.AgentEndpoint udpPacketMaxLength <;>
          simp [h1, h2, hh]
  · intro hall
    unfold NewExporter
    rw [if_pos hall]

/-- Witness for C3 at a concrete configuration with no destination. -/
theorem newExporter_missingEndpoint_iff_witness :
    NewExporter dialOk optsEmpty = Except.error NewExporterError.missingEndpoint :=
  (newExporter_missingEndpoint_iff dialOk optsEmpty).mpr ⟨rfl, rfl, rfl⟩

/-- Counterexample to claim C2: with both the legacy bare endpoint and the
explicit collector URL configured, the exporter selects the rewritten legacy
endpoint, not the explicit collector URL. -/
theorem newExporter_collector_priority_counterexample :
    (NewExporter dialOk optsBoth).map Exporter.endpoint =
        Except.ok "http://legacy:14268/api/traces?format=jaeger.thrift" ∧
      (NewExporter dialOk optsBoth).map Exporter.endpoint ≠
        Except.ok optsBoth.CollectorEndpoint := by
  constructor
  · rfl
  · intro h
    have hmap : (NewExporter dialOk optsBoth).map Exporter.endpoint =
        Except.ok "http://legacy:14268/api/traces?format=jaeger.thrift" := rfl
    rw [hmap] at h
    exact absurd (Except.ok.inj h) (by decide)

/-- Claim C2 (amended): endpoint selection follows the code's priority order —
the legacy bare endpoint, rewritten by appending the fixed API path, wins over
the explicit collector URL, which wins over the agent endpoint. -/
theorem newExporter_endpoint_priority (resolveDial : String → Except String Unit)
    (o : Options) :
    (o.Endpoint ≠ "" →
      (NewExporter resolveDial o).map Exporter.endpoint =
        Except.ok (o.Endpoint ++ "/api/traces?format=jaeger.thrift")) ∧
    (o.Endpoint = "" → o.CollectorEndpoint ≠ "" →
      (NewExporter resolveDial o).map Exporter.endpoint =
        Except.ok o.CollectorEndpoint) := by
  constructor
  · intro h
    simp [NewExporter, h, Except.map]
  · intro h h2
    simp [NewExporter, h, h2, Except.map]

/-- Witness for the amended C2 at a concrete configuration with both
endpoints set. -/
theorem newExporter_endpoint_priority_witness :
    (NewExporter dialOk optsBoth).map Exporter.endpoint =
      Except.ok (optsBoth.Endpoint ++ "/api/traces?format=jaeger.thrift") :=
  (newExporter_endpoint_priority dialOk optsBoth).1 (by decide)

/-- Claim C6: the translated operation name is `"Sent." ++ name` for a
client-kind span, `"Recv." ++ name` for a server-kind span, and the unchanged
name for any other kind. -/
theorem spanDataToThrift_operationName (sd : SpanData) :
    (sd.SpanKind = SpanKindClient →
      (spanDataToThrift sd).OperationName = "Sent." ++ sd.Name) ∧
    (sd.SpanKind = SpanKindServer →
      (spanDataToThrift sd).OperationName = "Recv." ++ sd.Name) ∧
    (sd.SpanKind ≠ SpanKindClient → sd.SpanKind ≠ SpanKindServer →
      (spanDataToThrift sd).OperationName = sd.Name) := by
  refine ⟨fun h => ?_, fun h => ?_, fun h1 h2 => ?_⟩
  · simp [spanDataToThrift, name, h, SpanKindClient, SpanKindServer]
  · simp [spanDataToThrift, name, h, SpanKindClient, SpanKindServer]
  · simp [spanDataToThrift, name, h1, h2]

/-- Witness for C6 at a concrete client-kind span. -/
theorem spanDataToThrift_operationName_witness :
    (spanDataToThrift { sd0 with SpanKind := SpanKindClient }).OperationName =
      "Sent." ++ "/foo" :=
  (spanDataToThrift_operationName { sd0 with SpanKind := SpanKindClient }).1 rfl

/-- Claim C7: `attributeToTag` yields a tag exactly for the five supported
value kinds and `none` for any other kind; an `int32` is widened losslessly to
the `LONG` wire representation; the span translator silently filters a
dropped attribute without disturbing its siblings. -/
theorem attributeToTag_supported (k : String) (v : AttributeValue) (n : Int)
    (sd : SpanData) (key : String) (pre post : List (String × AttributeValue)) :
    ((attributeToTag k v).isSome ↔ v ≠ AttributeValue.other) ∧
    attributeToTag k (AttributeValue.int32 n) =
      some { Key := k, VType := TagType.LONG, VLong := some n } ∧
    spanDataToThrift { sd with Attributes := pre ++ (key, AttributeValue.other) :: post } =
      spanDataToThrift { sd with Attributes := pre ++ post } := by
  refine ⟨?_, rfl, ?_⟩
  · cases v <;> simp [attributeToTag]
  · simp [spanDataToThrift, List.filterMap_append, attributeToTag, name]

/-- Witness for C7 at concrete inputs. -/
theorem attributeToTag_supported_witness :
    (attributeToTag "answer" (AttributeValue.int64 42)).isSome :=
  ((attributeToTag_supported "answer" (AttributeValue.int64 42) 0 sd0 "k" [] []).1).mpr
    (by decide)

/-- Claim C8: `ExportSpan` is a no-op on an unsampled record; on a sampled
record it hands exactly the translated span to the bundler, leaving every
other exporter field unchanged. -/
theorem exportSpan_spec (e : Exporter) (sd : SpanData) :
    (IsSampled sd = false → ExportSpan e sd = e) ∧
    (IsSampled sd = true →
      ExportSpan e sd = { e with bundler := e.bundler ++ [spanDataToThrift sd] }) := by
  constructor <;> intro h <;> simp [ExportSpan, h]

/-- Witness for C8 at concrete records, sampled and unsampled. -/
theorem exportSpan_spec_witness :
    ExportSpan e0 sd0 = { e0 with bundler := e0.bundler ++ [spanDataToThrift sd0] } ∧
    ExportSpan e0 { sd0 with TraceOptions := 0 } = e0 :=
  ⟨(exportSpan_spec e0 sd0).2 rfl,
   (exportSpan_spec e0 { sd0 with TraceOptions := 0 }).1 rfl⟩

/-- Claim C9: the collector upload fails with an error carrying the response
status code exactly when the status is outside 200..299, succeeds exactly
within that range, and attaches basic credentials exactly when both a
username and a password were configured. -/
theorem uploadCollector_spec (e : Exporter) (st : Int) :
    (uploadCollector e st = Except.error (UploadError.httpStatus st) ↔
      (st < 200 ∨ 300 ≤ st)) ∧
    (uploadCollector e st = Except.ok () ↔ (200 ≤ st ∧ st ≤ 299)) ∧
    ((buildCollectorRequest e).basicAuth.isSome ↔
      (e.username ≠ "" ∧ e.password ≠ "")) ∧
    ((buildCollectorRequest e).basicAuth.isSome →
      (buildCollectorRequest e).basicAuth = some (e.username, e.password)) := by
  refine ⟨?_, ?_, ?_, ?_⟩
  · unfold uploadCollector
    split_ifs with h
    · simp
      omega
    · simp
      omega
  · unfold uploadCollector
    split_ifs with h
    · simp
      omega
    · simp
      omega
  · unfold buildCollectorRequest
    split_ifs with h
    · simpa using h
    · simpa using h
  · unfold buildCollectorRequest
    split_ifs with h
    · intro _
      rfl
    · intro hs
      simp at hs

/-- Witness for C9 at concrete statuses and credentials. -/
theorem uploadCollector_spec_witness :
    uploadCollector e0 500 = Except.error (UploadError.httpStatus 500) ∧
    uploadCollector e0 204 = Except.ok () ∧
    (buildCollectorRequest e0).basicAuth = some (e0.username, e0.password) :=
  ⟨(uploadCollector_spec e0 500).1.mpr (by decide),
   (uploadCollector_spec e0 204).2.1.mpr (by decide),
   (uploadCollector_spec e0 204).2.2.2 ((uploadCollector_spec e0 204).2.2.1.mpr
     (by decide))⟩

/-- The big-endian read of 8 bytes stays below `2 ^ 64`. -/
theorem bigEndianUint64_lt (l : List Nat) (hlen : l.length = 8)
    (hb : ∀ b ∈ l, b < 256) : bigEndianUint64 l < 2 ^ 64 := by
  match l, hlen with
  | [a0, a1, a2, a3, a4, a5, a6, a7], _ =>
    simp only [List.mem_cons, List.not_mem_nil, or_false, forall_eq_or_imp, forall_eq] at hb
    obtain ⟨h0, h1, h2, h3, h4, h5, h6, h7⟩ := hb
    simp only [bigEndianUint64, List.foldl]
    have hp : (2 : Nat) ^ 64 = 18446744073709551616 := by norm_num
    rw [hp]
    omega

/-- Reading 8 in-range bytes big-endian and writing the value back
reproduces the bytes. -/
theorem uint64ToBytesBE_bigEndianUint64 (l : List Nat) (hlen : l.length = 8)
    (hb : ∀ b ∈ l, b < 256) : uint64ToBytesBE (bigEndianUint64 l) = l := by
  match l, hlen with
  | [a0, a1, a2, a3, a4, a5, a6, a7], _ =>
    simp only [List.mem_cons, List.not_mem_nil, or_false, forall_eq_or_imp, forall_eq] at hb
    obtain ⟨h0, h1, h2, h3, h4, h5, h6, h7⟩ := hb
    simp only [bigEndianUint64, List.foldl, uint64ToBytesBE, List.cons.injEq, and_true]
    norm_num
    refine ⟨?_, ?_, ?_, ?_, ?_, ?_, ?_, ?_⟩ <;> omega

/-- The `int64` reinterpretation of a 64-bit pattern is inverted by taking
the bit pattern back. -/
theorem int64ToUint64_uint64ToInt64 (u : Nat) (h : u < 2 ^ 64) :
    int64ToUint64 (uint64ToInt64 u) = u := by
  unfold int64ToUint64 uint64ToInt64
  have hp : (2 : Nat) ^ 64 = 18446744073709551616 := by norm_num
  have hq : (2 : Nat) ^ 63 = 9223372036854775808 := by norm_num
  have hr : (2 : Int) ^ 64 = 18446744073709551616 := by norm_num
  rw [hp] at h
  rw [hq, hr]
  split_ifs with h1 <;> omega

/-- Claim C4: the wire span's trace-id-high is the big-endian 64-bit integer
of bytes 0..8 of the trace identifier, trace-id-low that of bytes 8..16, and
re-assembling the big-endian byte representations of high and low reproduces
the original 16 bytes. -/
theorem spanDataToThrift_traceId_roundtrip (sd : SpanData)
    (hlen : sd.TraceID.length = 16) (hb : ∀ b ∈ sd.TraceID, b < 256) :
    (spanDataToThrift sd).TraceIdHigh = bytesToInt64 (sd.TraceID.take 8) ∧
    (spanDataToThrift sd).TraceIdLow = bytesToInt64 ((sd.TraceID.drop 8).take 8) ∧
    int64ToBytesBE (spanDataToThrift sd).TraceIdHigh ++
      int64ToBytesBE (spanDataToThrift sd).TraceIdLow = sd.TraceID := by
  have hTake : (sd.TraceID.take 8).length = 8 := by
    rw [List.length_take, hlen]
    omega
  have hDrop : (sd.TraceID.drop 8).length = 8 := by
    rw [List.length_drop, hlen]
  have hDropTake : (sd.TraceID.drop 8).take 8 = sd.TraceID.drop 8 :=
    List.take_of_length_le (by rw [hDrop])
  have hbT : ∀ b ∈ sd.TraceID.take 8, b < 256 :=
    fun b hbm => hb b (List.mem_of_mem_take hbm)
  have hbD : ∀ b ∈ sd.TraceID.drop 8, b < 256 :=
    fun b hbm => hb b (List.mem_of_mem_drop hbm)
  refine ⟨rfl, rfl, ?_⟩
  show int64ToBytesBE (bytesToInt64 (sd.TraceID.take 8)) ++
      int64ToBytesBE (bytesToInt64 ((sd.TraceID.drop 8).take 8)) = sd.TraceID
  rw [hDropTake]
  unfold int64ToBytesBE bytesToInt64
  rw [int64ToUint64_uint64ToInt64 _ (bigEndianUint64_lt _ hTake hbT),
    int64ToUint64_uint64ToInt64 _ (bigEndianUint64_lt _ hDrop hbD),
    uint64ToBytesBE_bigEndianUint64 _ hTake hbT,
    uint64ToBytesBE_bigEndianUint64 _ hDrop hbD,
    List.take_append_drop]

/-- Witness for C4 at the unit test's concrete 16-byte trace identifier. -/
theorem spanDataToThrift_traceId_roundtrip_witness :
    sd0.TraceID.length = 16 ∧ (∀ b ∈ sd0.TraceID, b < 256) ∧
    int64ToBytesBE (spanDataToThrift sd0).TraceIdHigh ++
      int64ToBytesBE (spanDataToThrift sd0).TraceIdLow = sd0.TraceID :=
  ⟨by decide, by decide,
   (spanDataToThrift_traceId_roundtrip sd0 (by decide) (by decide)).2.2⟩

/-- Claim C5: translation always appends the `status.code` (int64) and
`status.message` (string) tags; a nonzero status code always adds the boolean
`error=true` tag; a status code of 0 yields no `error`-keyed tag at all
(provided no attribute itself uses the key `error`). -/
theorem spanDataToThrift_status_tags (sd : SpanData) :
    (({ Key := "status.code", VType := TagType.LONG, VLong := some sd.Status.Code } : Tag)
        ∈ (spanDataToThrift sd).Tags) ∧
    (({ Key := "status.message", VType := TagType.STRING,
        VStr := some sd.Status.Message } : Tag) ∈ (spanDataToThrift sd).Tags) ∧
    (sd.Status.Code ≠ 0 →
      ({ Key := "error", VType := TagType.BOOL, VBool := some true } : Tag)
        ∈ (spanDataToThrift sd).Tags) ∧
    (sd.Status.Code = 0 → (∀ kv ∈ sd.Attributes, kv.1 ≠ "error") →
      ∀ t ∈ (spanDataToThrift sd).Tags, t.Key ≠ "error") := by
  refine ⟨?_, ?_, fun hc => ?_, fun hc hattr t ht => ?_⟩
  · simp [spanDataToThrift, attributeToTag]
  · simp [spanDataToThrift, attributeToTag]
  · simp [spanDataToThrift, attributeToTag, opencensusStatusCodeOK, hc]
  · have hts : (spanDataToThrift sd).Tags =
        sd.Attributes.filterMap (fun kv => attributeToTag kv.1 kv.2) ++
        [{ Key := "status.code", VType := TagType.LONG, VLong := some sd.Status.Code },
         { Key := "status.message", VType := TagType.STRING,
           VStr := some sd.Status.Message }] := by
      simp [spanDataToThrift, attributeToTag, opencensusStatusCodeOK, hc]
    rw [hts] at ht
    rcases List.mem_append.mp ht with hA | hS
    · obtain ⟨kv, hkv, htag⟩ := List.mem_filterMap.mp hA
      rw [attributeToTag_key kv.1 kv.2 t htag]
      exact hattr kv hkv
    · simp only [List.mem_cons, List.not_mem_nil, or_false] at hS
      rcases hS with h | h <;> rw [h] <;> simp

/-- Witness for C5: the error tag is present for status code 2 and absent
for status code 0. -/
theorem spanDataToThrift_status_tags_witness :
    (({ Key := "error", VType := TagType.BOOL, VBool := some true } : Tag)
        ∈ (spanDataToThrift sdErr).Tags) ∧
    (∀ t ∈ (spanDataToThrift sd0).Tags, t.Key ≠ "error") :=
  ⟨(spanDataToThrift_status_tags sdErr).2.2.1 (by decide),
   (spanDataToThrift_status_tags sd0).2.2.2 (by decide) (by decide)⟩

/-- Claim C10: over any sequence of `EmitBatch` calls, each call's size check
and write depend only on that call's own encoded batch — the buffer is reset
every call, so the initial buffer contents and earlier calls' encodings
(including rejected ones) are never counted or sent later. -/
theorem runEmits_buffer_reset (encode : Batch → List Nat)
    (a : AgentClientUDP) (bs : List Batch) :
    (runEmits encode a bs).1 = bs.map (fun b =>
        if (encode b).length > a.maxPacketSize then
          Except.error (EmitBatchError.oversized (encode b).length a.maxPacketSize
            b.Spans.length)
        else Except.ok ()) ∧
    (runEmits encode a bs).2.writes = a.writes ++
      (bs.filter (fun b => decide ((encode b).length ≤ a.maxPacketSize))).map encode := by
  induction bs generalizing a with
  | nil => simp [runEmits]
  | cons b bs ih =>
    obtain ⟨ih1, ih2⟩ := ih (EmitBatch encode a b).2
    rw [emitBatch_snd_max] at ih1 ih2
    constructor
    · simp only [runEmits, List.map_cons]
      rw [ih1, emitBatch_fst]
    · simp only [runEmits]
      rw [ih2, emitBatch_snd_writes, List.filter_cons]
      by_cases h : (encode b).length > a.maxPacketSize
      · rw [if_pos h]
        have hno : ¬((encode b).length ≤ a.maxPacketSize) := by omega
        simp [hno]
      · rw [if_neg h]
        have hle : (encode b).length ≤ a.maxPacketSize := by omega
        simp [hle, List.append_assoc]


/-- Witness for C1: a 2-byte encoding against capacity 1 is rejected with the
exact size, capacity and span count, and nothing is written. -/
theorem emitBatch_oversized_or_single_write_witness :
    (EmitBatch (fun _ => [0, 0]) agent1 batch0).1 =
      Except.error (EmitBatchError.oversized 2 1 0) ∧
    (EmitBatch (fun _ => [0, 0]) agent1 batch0).2.writes = agent1.writes := by
  have h := emitBatch_oversized_or_single_write (fun _ => [0, 0]) agent1 batch0
  rw [if_pos (by decide)] at h
  exact h

end JaegerExporter
